import Mathlib

/-!
Verification of the clawlet payment broker and wallet-state engine.

The definitions below are a shallow embedding of the TypeScript sources:
rules.ts (spending-rules engine), ledger.ts (per-wallet transaction ledger),
store.ts (persistent state store and v1 to v2 migration) and x402.ts (the
payment broker: negotiate, single-shot fetch, two-phase prepare/complete,
session sweeper).  Machine integers are modelled as Int/Nat, JS strings as
String, thrown errors as Except, and the ambient effects (clock, randomness,
HTTP responses, adapter signing) as explicit parameters and event logs.
-/

namespace Clawlet

/-!
String primitives.  All strings this program manipulates are ASCII, so the
JS code-unit operations coincide with operations on the character list; the
helpers below work on String.data directly so that every definition reduces
inside the kernel.
-/

/-- The string made of the first n characters. -/
def strTake (s : String) (n : Nat) : String := String.mk (s.data.take n)

/-- The string without its first n characters. -/
def strDrop (s : String) (n : Nat) : String := String.mk (s.data.drop n)

/-- JS String.startsWith. -/
def strStartsWith (s p : String) : Bool := p.data.isPrefixOf s.data

/-- Some character of the string satisfies the test. -/
def strAny (s : String) (p : Char → Bool) : Bool := s.data.any p

/-- ASCII lower-casing of one character (JS toLowerCase on the ASCII
strings this program compares). -/
def charLower (c : Char) : Char :=
  if 65 ≤ c.toNat ∧ c.toNat ≤ 90 then Char.ofNat (c.toNat + 32) else c

/-- ASCII lower-casing of a string. -/
def strLower (s : String) : String := String.mk (s.data.map charLower)

/-- JS String.split on the dot character. -/
def splitDotAux : List Char → List Char → List String
  | [], acc => [String.mk acc.reverse]
  | c :: rest, acc =>
    if c = '.' then String.mk acc.reverse :: splitDotAux rest []
    else splitDotAux rest (c :: acc)

/-- JS String.split on the dot character, from the start of the string. -/
def splitDot (s : String) : List String := splitDotAux s.data []

/-- Value of a string of decimal digits, most significant first.  The empty
string evaluates to 0, matching JS BigInt applied to the empty string. -/
def digitsToNat (s : String) : Nat :=
  s.data.foldl (fun acc c => acc * 10 + (c.toNat - 48)) 0

/-- JS BigInt applied to an optionally sign-prefixed decimal string, as the
broker does with the atomic amount strings taken from the 402 document. -/
def jsBigInt (s : String) : Int :=
  if strStartsWith s "-" then -(digitsToNat (strDrop s 1) : Int) else (digitsToNat s : Int)

/-- Left-pad a string with the digit zero up to the given length
(JS String.padStart with a zero pad). -/
def padStartZeros (s : String) (n : Nat) : String :=
  String.mk (List.replicate (n - s.length) '0') ++ s

/-- Remove every trailing zero digit (the JS regex replace of a trailing
zero run used by viem on the fractional part). -/
def trimTrailingZeros (s : String) : String :=
  String.mk (s.data.reverse.dropWhile (fun c => c == '0')).reverse

/-- True when the first character of the string is a digit of five or more:
this decides the half-up rounding JS Math.round performs on the decimal
fraction viem hands it (an empty string stands for NaN, never rounded up). -/
def roundsUp (s : String) : Bool :=
  strAny (strTake s 1) (fun c => c ≥ '5')

/-- viem parseUnits: scale a human decimal string to an integer of atomic
units with the given number of decimals, rounding excess fractional digits
half-up, exactly as viem does over the split integer/fraction parts. -/
def parseUnits (value : String) (decimals : Nat) : Int :=
  let parts := splitDot value
  let integerRaw := parts.headD ""
  let fractionRaw := parts.getD 1 "0"
  let negative := strStartsWith integerRaw "-"
  let integerStr := if negative then strDrop integerRaw 1 else integerRaw
  let intPart := digitsToNat integerStr
  let fraction := trimTrailingZeros fractionRaw
  let magnitude :=
    if decimals = 0 then
      intPart + (if roundsUp fraction then 1 else 0)
    else if fraction.length > decimals then
      let left := strTake fraction (decimals - 1)
      let unit := digitsToNat (strTake (strDrop fraction (decimals - 1)) 1)
      let right := strDrop fraction decimals
      let rounded := unit + (if roundsUp right then 1 else 0)
      let fraction2 :=
        if rounded > 9 then
          padStartZeros (toString (digitsToNat left + 1) ++ "0") (left.length + 1)
        else left ++ toString rounded
      let carried := fraction2.length > decimals
      let fraction3 := if carried then strDrop fraction2 1 else fraction2
      let intPart2 := if carried then intPart + 1 else intPart
      intPart2 * 10 ^ decimals + digitsToNat (strTake fraction3 decimals)
    else
      intPart * 10 ^ decimals +
        digitsToNat (fraction ++ String.mk (List.replicate (decimals - fraction.length) '0'))
  if negative then -(magnitude : Int) else (magnitude : Int)

/-- viem formatUnits: render an atomic integer as a human decimal string.
The digits are left-padded to the decimal width, split into integer and
fractional parts, trailing fractional zeros are removed, and the dot is
omitted entirely when the fraction is empty. -/
def formatUnits (value : Int) (decimals : Nat) : String :=
  let negative := value < 0
  let display := padStartZeros (toString value.natAbs) decimals
  let integer := strTake display (display.length - decimals)
  let fraction := trimTrailingZeros (strDrop display (display.length - decimals))
  (if negative then "-" else "") ++
    (if integer = "" then "0" else integer) ++
    (if fraction = "" then "" else "." ++ fraction)

/-- JS String.includes: the needle occurs somewhere in the haystack. -/
def containsSub (haystack needle : String) : Bool :=
  (List.range (haystack.length + 1)).any (fun i => needle.data.isPrefixOf (haystack.data.drop i))

/-- Equality of Except values is decidable when both components are. -/
instance {ε α : Type} [DecidableEq ε] [DecidableEq α] : DecidableEq (Except ε α) := fun x y =>
  match x, y with
  | Except.error a, Except.error b =>
      if h : a = b then Decidable.isTrue (by rw [h])
      else Decidable.isFalse (by intro hc; injection hc; contradiction)
  | Except.error _, Except.ok _ => Decidable.isFalse (fun hc => Except.noConfusion hc)
  | Except.ok _, Except.error _ => Decidable.isFalse (fun hc => Except.noConfusion hc)
  | Except.ok a, Except.ok b =>
      if h : a = b then Decidable.isTrue (by rw [h])
      else Decidable.isFalse (by intro hc; injection hc; contradiction)

/-! Data model (types.ts). -/

/-- Status of a ledger transaction record. -/
inductive TxStatus
  | pending
  | settled
  | failed
deriving DecidableEq

/-- TransactionRecord of types.ts.  The nullable txHash is an Option, the
amount is the human-readable decimal string the broker stores, and toAddr
renders the field named to in the source (a reserved word here). -/
structure TransactionRecord where
  id : String
  timestamp : String
  toAddr : String
  service : String
  amount : String
  asset : String
  network : String
  txHash : Option String
  status : TxStatus
  reason : String
deriving DecidableEq

/-- SpendingRules of types.ts: nullable human-readable USDC limits and the
service allow and block pattern lists. -/
structure SpendingRules where
  maxPerTransaction : Option String
  dailyCap : Option String
  allowedServices : List String
  blockedServices : List String
deriving DecidableEq

/-- DEFAULT_RULES of types.ts. -/
def DEFAULT_RULES : SpendingRules :=
  { maxPerTransaction := none, dailyCap := none, allowedServices := [], blockedServices := [] }

/-- WalletInfo of types.ts. -/
structure WalletInfo where
  address : String
  createdAt : String
  frozen : Bool
deriving DecidableEq

/-- AgentIdentity of types.ts. -/
structure AgentIdentity where
  name : String
  description : Option String
  agentId : Option String
  agentRegistry : Option String
  agentURI : Option String
deriving DecidableEq

/-- AdapterConfig of adapters/types.ts, a tagged variant over five kinds. -/
inductive AdapterConfig
  | localKey (privateKey : String)
  | privy (appId appSecret : String) (walletId cachedAddress : Option String)
  | coinbaseCdp (apiKeyId apiKeySecret : String) (walletId cachedAddress : Option String)
  | crossmint (apiKey : String) (walletId cachedAddress : Option String)
  | browser (address : String)
deriving DecidableEq

/-- WalletEntry of types.ts. -/
structure WalletEntry where
  id : String
  label : String
  wallet : WalletInfo
  adapterConfig : AdapterConfig
  rules : SpendingRules
  transactions : List TransactionRecord
  agentIdentity : Option AgentIdentity
deriving DecidableEq

/-- NetworkId of types.ts. -/
inductive NetworkId
  | base
  | baseSepolia
deriving DecidableEq

/-- ClawletState of types.ts, the persisted v2 document. -/
structure ClawletState where
  wallets : List WalletEntry
  activeWalletId : Option String
  network : NetworkId
deriving DecidableEq

/-- LegacyClawletState of types.ts, the v1 single-wallet document.  Every
field is optional because migration reads raw JSON and tests each field for
truthiness before using it. -/
structure LegacyClawletState where
  adapterConfig : Option AdapterConfig
  wallet : Option WalletInfo
  rules : Option SpendingRules
  transactions : Option (List TransactionRecord)
deriving DecidableEq

/-- A raw state document read from disk: either it already has a wallets
array (v2) or it is a legacy v1 document. -/
inductive RawState
  | v2 (s : ClawletState)
  | legacy (l : LegacyClawletState)
deriving DecidableEq

/-! State store (store.ts). -/

/-- migrateIfNeeded of store.ts.  A document with a wallets array is
returned as-is.  A legacy document with both a wallet and an adapterConfig
becomes a one-element wallets array under a fresh id with label Wallet 1,
keeping the legacy rules (defaulted) and transactions (defaulted to empty);
any other legacy document becomes the empty v2 document on network base. -/
def migrateIfNeeded (freshId : String) (raw : RawState) : ClawletState :=
  match raw with
  | RawState.v2 s => s
  | RawState.legacy l =>
    match l.wallet, l.adapterConfig with
    | some w, some ac =>
      { wallets := [{ id := freshId, label := "Wallet 1", wallet := w, adapterConfig := ac,
                      rules := l.rules.getD DEFAULT_RULES,
                      transactions := l.transactions.getD [],
                      agentIdentity := none }],
        activeWalletId := some freshId, network := NetworkId.base }
    | _, _ => { wallets := [], activeWalletId := none, network := NetworkId.base }

/-- A file-system operation, for describing what persist does on disk. -/
inductive FsOp
  | writeFile (path : String) (content : String)
  | rename (fromPath toPath : String)
deriving DecidableEq

/-- File-system effect of persist (store.ts): a single direct writeFileSync
of the serialized state document to the state path.  The serialized text is
a parameter standing for the pretty-printed JSON of the current document. -/
def persistOps (statePath serialized : String) : List FsOp :=
  [FsOp.writeFile statePath serialized]

/-! Ledger (ledger.ts). -/

/-- Thrown ledger errors. -/
inductive LedgerError
  | txNotFound
deriving DecidableEq

/-- addTransaction of ledger.ts pushes the new record onto the end of the
active wallet transaction list (id and timestamp are supplied by the
caller here, standing for the fresh random id and the current time). -/
def addTransaction (transactions : List TransactionRecord) (record : TransactionRecord) :
    List TransactionRecord :=
  transactions ++ [record]

/-- The patch given to updateTransaction: optional status, txHash, reason. -/
structure TxUpdate where
  status : Option TxStatus
  txHash : Option String
  reason : Option String
deriving DecidableEq

/-- Field application of updateTransaction: each field is applied only when
present, and the string fields only when JS-truthy (non-empty). -/
def applyUpdate (tx : TransactionRecord) (u : TxUpdate) : TransactionRecord :=
  let tx1 := match u.status with
    | some s => { tx with status := s }
    | none => tx
  let tx2 := match u.txHash with
    | some h => if h = "" then tx1 else { tx1 with txHash := some h }
    | none => tx1
  match u.reason with
  | some r => if r = "" then tx2 else { tx2 with reason := r }
  | none => tx2

/-- Replace the first record with the given id (the record the JS find call
returns and mutates in place). -/
def replaceFirst (transactions : List TransactionRecord) (id : String) (u : TxUpdate) :
    List TransactionRecord :=
  match transactions with
  | [] => []
  | t :: rest => if t.id = id then applyUpdate t u :: rest else t :: replaceFirst rest id u

/-- updateTransaction of ledger.ts: look the record up by id on the active
wallet, apply the provided fields and persist; throw when the id is
unknown. -/
def updateTransaction (transactions : List TransactionRecord) (id : String) (u : TxUpdate) :
    Except LedgerError (List TransactionRecord) :=
  if transactions.any (fun t => t.id == id) then Except.ok (replaceFirst transactions id u)
  else Except.error LedgerError.txNotFound

/-! Rules engine (rules.ts). -/

/-- getTodaySpent of rules.ts: the sum in atomic units of every settled
transaction whose ISO timestamp starts with the current UTC date prefix.
The date prefix is a parameter standing for the clock. -/
def getTodaySpent (today : String) (transactions : List TransactionRecord) : Int :=
  transactions.foldl
    (fun total tx =>
      if tx.status = TxStatus.settled ∧ strStartsWith tx.timestamp today then
        total + parseUnits tx.amount 6
      else total) 0

/-- The four rule violations enforceRules can throw, in check order. -/
inductive RuleError
  | overPerTx
  | overDaily
  | blocked
  | notAllowed
deriving DecidableEq

/-- Per-transaction check of enforceRules: the amount exceeds the parsed
maxPerTransaction limit when one is set. -/
def exceedsMaxPerTx (rules : SpendingRules) (amount : Int) (decimals : Nat) : Bool :=
  match rules.maxPerTransaction with
  | some maxStr => decide (amount > parseUnits maxStr decimals)
  | none => false

/-- Daily-cap check of enforceRules: todaySpent, recomputed from the ledger,
plus the amount exceeds the parsed dailyCap when one is set. -/
def exceedsDailyCap (rules : SpendingRules) (transactions : List TransactionRecord)
    (today : String) (amount : Int) (decimals : Nat) : Bool :=
  match rules.dailyCap with
  | some capStr => decide (getTodaySpent today transactions + amount > parseUnits capStr decimals)
  | none => false

/-- Blocklist check of enforceRules: some blocked pattern is a
case-insensitive substring of the service. -/
def serviceBlocked (rules : SpendingRules) (service : String) : Bool :=
  decide (rules.blockedServices.length > 0) &&
    rules.blockedServices.any (fun s => containsSub (strLower service) (strLower s))

/-- Allowlist check of enforceRules: the allowlist is non-empty and no
allowed pattern is a case-insensitive substring of the service. -/
def serviceNotAllowed (rules : SpendingRules) (service : String) : Bool :=
  decide (rules.allowedServices.length > 0) &&
    !(rules.allowedServices.any (fun s => containsSub (strLower service) (strLower s)))

/-- enforceRules of rules.ts: convert the atomic amount string with BigInt,
then check the per-transaction limit, the daily cap, the blocklist and the
allowlist in that order, throwing on the first violation. -/
def enforceRules (rules : SpendingRules) (transactions : List TransactionRecord)
    (today : String) (amountAtomic : String) (service : String) (decimals : Nat) :
    Except RuleError Unit :=
  let amount := jsBigInt amountAtomic
  if exceedsMaxPerTx rules amount decimals then Except.error RuleError.overPerTx
  else if exceedsDailyCap rules transactions today amount decimals then
    Except.error RuleError.overDaily
  else if serviceBlocked rules service then Except.error RuleError.blocked
  else if serviceNotAllowed rules service then Except.error RuleError.notAllowed
  else Except.ok ()

/-! Chain constants (constants.ts). -/

/-- CHAIN_IDS of constants.ts: the numeric chain id for a recognized CAIP-2
network, none otherwise. -/
def CHAIN_IDS (network : String) : Option Nat :=
  if network = "eip155:8453" then some 8453
  else if network = "eip155:84532" then some 84532
  else none

/-- USDC of constants.ts: the USDC contract address per CAIP-2 network. -/
def USDC (network : String) : Option String :=
  if network = "eip155:8453" then some "0x833589fCD6eDb6E08f4c7C32D4f71b54bdA02913"
  else if network = "eip155:84532" then some "0x036CbD53842c5426634e7929541eC2318f3dCF7e"
  else none

/-- An EIP-712 domain record as in constants.ts. -/
structure Eip712Domain where
  name : String
  version : String
  chainId : Nat
  verifyingContract : String
deriving DecidableEq

/-- USDC_DOMAIN of constants.ts: the per-chain EIP-712 domain for USDC. -/
def USDC_DOMAIN (network : String) : Option Eip712Domain :=
  if network = "eip155:8453" then
    some { name := "USD Coin", version := "2", chainId := 8453,
           verifyingContract := "0x833589fCD6eDb6E08f4c7C32D4f71b54bdA02913" }
  else if network = "eip155:84532" then
    some { name := "USDC", version := "2", chainId := 84532,
           verifyingContract := "0x036CbD53842c5426634e7929541eC2318f3dCF7e" }
  else none

/-! x402 wire types (types.ts). -/

/-- PaymentRequirements of types.ts, one offer of the 402 document. -/
structure PaymentRequirements where
  scheme : String
  network : String
  asset : String
  amount : String
  payTo : String
  maxTimeoutSeconds : Nat
deriving DecidableEq

/-- PaymentRequired of types.ts, the parsed 402 document. -/
structure PaymentRequired where
  x402Version : Nat
  accepts : List PaymentRequirements
deriving DecidableEq

/-- The upstream response the initial fetch of negotiate obtains, at the
level the broker consumes it: either a non-402 response forwarded verbatim,
or a 402 whose payment-required document has been decoded from the base64
header or the JSON body. -/
inductive Upstream
  | plain (status : Nat) (headers : List (String × String)) (body : String)
  | required402 (doc : PaymentRequired)
deriving DecidableEq

/-- The parsed payment-response receipt of the retry, carrying the optional
transaction and txHash fields the broker reads. -/
structure Receipt where
  transaction : Option String
  txHash : Option String
deriving DecidableEq

/-- The retry response at the level the broker consumes it: the HTTP status
and the receipt parsed from the payment-response header, none when the
header is absent or its base64 JSON fails to parse. -/
structure RetryResponse where
  status : Nat
  receipt : Option Receipt
deriving DecidableEq

/-! Payment broker (x402.ts). -/

/-- findAcceptedOption of x402.ts: the first offer with the exact scheme, a
recognized EVM network, and the USDC asset address of that network compared
case-insensitively. -/
def findAcceptedOption (accepts : List PaymentRequirements) : Option PaymentRequirements :=
  accepts.find? (fun option =>
    option.scheme == "exact" &&
    (CHAIN_IDS option.network).isSome &&
    (match USDC option.network with
     | some expected => strLower option.asset == strLower expected
     | none => false))

/-- Negotiation failures thrown by negotiate of x402.ts. -/
inductive NegotiateError
  | noCompatibleOption
  | networkMismatch (selected server : String)
  | ruleViolation (e : RuleError)
deriving DecidableEq

/-- Successful negotiate outcome: a passthrough of a non-402 response, or a
payment obligation with the selected offer and the service host. -/
inductive NegotiateOutcome
  | passthrough (status : Nat) (headers : List (String × String)) (body : String)
  | payment (accepted : PaymentRequirements) (service : String)
deriving DecidableEq

/-- negotiate of x402.ts: forward a non-402 response unchanged; otherwise
select a compatible offer from the 402 document, guard that its network is
the currently selected CAIP-2 network, and enforce the spending rules on
the offer amount and the URL host (the service parameter). -/
def negotiate (selectedNetwork : String) (rules : SpendingRules)
    (transactions : List TransactionRecord) (today : String)
    (upstream : Upstream) (service : String) : Except NegotiateError NegotiateOutcome :=
  match upstream with
  | Upstream.plain status headers body =>
      Except.ok (NegotiateOutcome.passthrough status headers body)
  | Upstream.required402 doc =>
    match findAcceptedOption doc.accepts with
    | none => Except.error NegotiateError.noCompatibleOption
    | some accepted =>
      if accepted.network ≠ selectedNetwork then
        Except.error (NegotiateError.networkMismatch selectedNetwork accepted.network)
      else
        match enforceRules rules transactions today accepted.amount service 6 with
        | Except.error e => Except.error (NegotiateError.ruleViolation e)
        | Except.ok _ => Except.ok (NegotiateOutcome.payment accepted service)

/-- The observable broker effects, logged in the order the code performs
them: the adapter signing call, the persisted pending-ledger append, the
retry HTTP request, the ledger update, and the session-table removal. -/
inductive BrokerEvent
  | sign
  | appendPending (txId : String)
  | retryRequest
  | updateTx (txId : String)
  | deleteSession (sessionId : String)
deriving DecidableEq

/-- The payment part of a broker result: retry status, extracted receipt
hash, human-readable amount and payee. -/
structure PaymentResult where
  status : Nat
  txHash : Option String
  amount : String
  payTo : String
deriving DecidableEq

/-- Receipt extraction of retryWithPayment: the transaction field, else the
txHash field, else null (JS nullish coalescing, so an empty string is
kept). -/
def extractTxHash (receipt : Option Receipt) : Option String :=
  match receipt with
  | none => none
  | some r =>
    match r.transaction with
    | some t => some t
    | none => r.txHash

/-- retryWithPayment of x402.ts, after the retry response has arrived: read
the receipt, settle the ledger record with the hash on a 2xx status or mark
it failed otherwise, and return the response together with the payment
summary whose amount is formatUnits of the atomic amount at 6 decimals. -/
def retryWithPayment (transactions : List TransactionRecord)
    (accepted : PaymentRequirements) (txRecordId : String) (retry : RetryResponse) :
    Except LedgerError (PaymentResult × List TransactionRecord) :=
  let txHash := extractTxHash retry.receipt
  let update : TxUpdate :=
    if 200 ≤ retry.status ∧ retry.status < 300 then
      { status := some TxStatus.settled, txHash := txHash, reason := none }
    else
      { status := some TxStatus.failed, txHash := none, reason := none }
  match updateTransaction transactions txRecordId update with
  | Except.error e => Except.error e
  | Except.ok txs2 =>
      Except.ok ({ status := retry.status, txHash := txHash,
                   amount := formatUnits (jsBigInt accepted.amount) 6,
                   payTo := accepted.payTo }, txs2)

/-- The pending record x402Fetch and x402Prepare append before the retry:
fresh id and timestamp, the payee and service, the human-readable amount,
null txHash and pending status. -/
def pendingRecord (freshTxId timestamp : String) (accepted : PaymentRequirements)
    (service reason : String) : TransactionRecord :=
  { id := freshTxId, timestamp := timestamp, toAddr := accepted.payTo, service := service,
    amount := formatUnits (jsBigInt accepted.amount) 6, asset := accepted.asset,
    network := accepted.network, txHash := none, status := TxStatus.pending, reason := reason }

/-- Failures x402Fetch can throw. -/
inductive FetchError
  | walletFrozen
  | negotiationFailed (e : NegotiateError)
  | ledger (e : LedgerError)
deriving DecidableEq

/-- Result of a successful x402Fetch: a forwarded non-payment response or a
paid response. -/
inductive FetchResult
  | passthrough (status : Nat) (headers : List (String × String)) (body : String)
  | paid (r : PaymentResult)
deriving DecidableEq

/-- Outcome of a call to x402Fetch: the returned value or thrown error, the
transaction list of the active wallet afterwards, and the logged broker
events in order. -/
structure FetchOutcome where
  result : Except FetchError FetchResult
  transactions : List TransactionRecord
  events : List BrokerEvent
deriving DecidableEq

/-- x402Fetch of x402.ts (single-shot flow): refuse a frozen wallet, then
negotiate; forward a passthrough; otherwise sign via the adapter, append
the pending ledger record, and issue the retry with the signed payment.
The clock, fresh random id and upstream and retry responses are
parameters.  The event log mirrors the statement order of the code: the
adapter signing call comes before the pending append, which comes before
the retry request. -/
def x402Fetch (frozen : Bool) (selectedNetwork : String) (rules : SpendingRules)
    (transactions : List TransactionRecord) (today : String) (service : String)
    (upstream : Upstream) (retry : RetryResponse)
    (freshTxId timestamp reason : String) : FetchOutcome :=
  if frozen then
    { result := Except.error FetchError.walletFrozen, transactions := transactions, events := [] }
  else
    match negotiate selectedNetwork rules transactions today upstream service with
    | Except.error e =>
        { result := Except.error (FetchError.negotiationFailed e),
          transactions := transactions, events := [] }
    | Except.ok (NegotiateOutcome.passthrough status headers body) =>
        { result := Except.ok (FetchResult.passthrough status headers body),
          transactions := transactions, events := [] }
    | Except.ok (NegotiateOutcome.payment accepted service2) =>
        let txs1 := addTransaction transactions
          (pendingRecord freshTxId timestamp accepted service2 reason)
        match retryWithPayment txs1 accepted freshTxId retry with
        | Except.error e =>
            { result := Except.error (FetchError.ledger e), transactions := txs1,
              events := [BrokerEvent.sign, BrokerEvent.appendPending freshTxId,
                         BrokerEvent.retryRequest] }
        | Except.ok (result, txs2) =>
            { result := Except.ok (FetchResult.paid result), transactions := txs2,
              events := [BrokerEvent.sign, BrokerEvent.appendPending freshTxId,
                         BrokerEvent.retryRequest, BrokerEvent.updateTx freshTxId] }

/-! Two-phase browser-wallet flow (x402.ts). -/

/-- The ERC-3009 authorization as stored in a session, all integer fields
already stringified as the code sends them (fromAddr renders the source
field named from, a reserved word here). -/
structure Authorization where
  fromAddr : String
  toAddr : String
  value : String
  validAfter : String
  validBefore : String
  nonce : String
deriving DecidableEq

/-- PaymentSession of x402.ts.  The stored request options (method, headers,
body) and the parsed payment-required document are folded into the retry
response parameter of the completing call and are not repeated here. -/
structure PaymentSession where
  id : String
  url : String
  reason : String
  accepted : PaymentRequirements
  authorization : Authorization
  txRecordId : String
  expiresAt : Nat
deriving DecidableEq

/-- The in-memory payment-session map, modelled as an insertion-ordered
association list as a JS Map iterates. -/
abbrev SessionTable : Type := List (String × PaymentSession)

/-- Map.get on the session table. -/
def sessionsGet (sessions : SessionTable) (id : String) : Option PaymentSession :=
  (List.find? (fun p => p.1 == id) sessions).map Prod.snd

/-- Map.delete on the session table. -/
def sessionsDelete (sessions : SessionTable) (id : String) : SessionTable :=
  List.filter (fun p => p.1 != id) sessions

/-- Failures x402Prepare can throw. -/
inductive PrepareError
  | walletFrozen
  | negotiationFailed (e : NegotiateError)
  | not402 (status : Nat)
  | noDomain
deriving DecidableEq

/-- The session descriptor x402Prepare returns to the browser (the EIP-712
types constant and the message echo the stored authorization and are not
repeated). -/
structure PrepareResult where
  sessionId : String
  domain : Eip712Domain
  amount : String
  payTo : String
  network : String
deriving DecidableEq

/-- Outcome of a call to x402Prepare: the returned descriptor or thrown
error, the transaction list afterwards, the session table afterwards, and
the logged broker events in order. -/
structure PrepareOutcome where
  result : Except PrepareError PrepareResult
  transactions : List TransactionRecord
  sessions : SessionTable
  events : List BrokerEvent
deriving DecidableEq

/-- x402Prepare of x402.ts (two-phase flow, phase one): refuse a frozen
wallet, negotiate (a passthrough is an error here), build the ERC-3009
authorization with validBefore equal to now plus the offer timeout, append
the pending ledger record, and store the session keyed by a fresh id with
expiresAt equal to validBefore.  No adapter signing call occurs. -/
def x402Prepare (frozen : Bool) (selectedNetwork : String) (rules : SpendingRules)
    (transactions : List TransactionRecord) (today : String) (service : String)
    (upstream : Upstream) (sessions : SessionTable) (now : Nat)
    (fromAddress nonce freshTxId timestamp reason sessionId url : String) : PrepareOutcome :=
  if frozen then
    { result := Except.error PrepareError.walletFrozen, transactions := transactions,
      sessions := sessions, events := [] }
  else
    match negotiate selectedNetwork rules transactions today upstream service with
    | Except.error e =>
        { result := Except.error (PrepareError.negotiationFailed e),
          transactions := transactions, sessions := sessions, events := [] }
    | Except.ok (NegotiateOutcome.passthrough status _ _) =>
        { result := Except.error (PrepareError.not402 status),
          transactions := transactions, sessions := sessions, events := [] }
    | Except.ok (NegotiateOutcome.payment accepted service2) =>
      match USDC_DOMAIN accepted.network with
      | none =>
          { result := Except.error PrepareError.noDomain,
            transactions := transactions, sessions := sessions, events := [] }
      | some domain =>
        let validBefore := now + accepted.maxTimeoutSeconds
        let authorization : Authorization :=
          { fromAddr := fromAddress, toAddr := accepted.payTo, value := accepted.amount,
            validAfter := toString now, validBefore := toString validBefore, nonce := nonce }
        let txs1 := addTransaction transactions
          (pendingRecord freshTxId timestamp accepted service2 reason)
        let session : PaymentSession :=
          { id := sessionId, url := url, reason := reason, accepted := accepted,
            authorization := authorization, txRecordId := freshTxId,
            expiresAt := validBefore }
        { result := Except.ok
            { sessionId := sessionId, domain := domain,
              amount := formatUnits (jsBigInt accepted.amount) 6,
              payTo := accepted.payTo, network := accepted.network },
          transactions := txs1,
          sessions := sessions ++ [(sessionId, session)],
          events := [BrokerEvent.appendPending freshTxId] }

/-- Failures x402Complete can throw.  sessionNotFound is the session-lookup
failure and sessionExpired the distinct expiry failure of the code. -/
inductive CompleteError
  | sessionNotFound
  | sessionExpired
  | ledger (e : LedgerError)
deriving DecidableEq

/-- Outcome of a call to x402Complete: the returned value or thrown error,
the session table afterwards, the transaction list afterwards, and the
logged broker events in order. -/
structure CompleteOutcome where
  result : Except CompleteError PaymentResult
  sessions : SessionTable
  transactions : List TransactionRecord
  events : List BrokerEvent
deriving DecidableEq

/-- The ledger patch applied when a payment session has expired. -/
def expiredUpdate : TxUpdate :=
  { status := some TxStatus.failed, txHash := none, reason := some "Payment session expired" }

/-- x402Complete of x402.ts (two-phase flow, phase two): look the session
up, failing with sessionNotFound when absent; when present but past
expiresAt, delete it, mark its ledger record failed with the expiry reason
and fail with sessionExpired; otherwise delete the session first (one-time
use) and issue the retry with the caller-supplied signature. -/
def x402Complete (sessions : SessionTable) (transactions : List TransactionRecord)
    (now : Nat) (sessionId _signature : String) (retry : RetryResponse) : CompleteOutcome :=
  match sessionsGet sessions sessionId with
  | none =>
      { result := Except.error CompleteError.sessionNotFound, sessions := sessions,
        transactions := transactions, events := [] }
  | some session =>
    if now > session.expiresAt then
      match updateTransaction transactions session.txRecordId expiredUpdate with
      | Except.error e =>
          { result := Except.error (CompleteError.ledger e),
            sessions := sessionsDelete sessions sessionId, transactions := transactions,
            events := [BrokerEvent.deleteSession sessionId] }
      | Except.ok txs2 =>
          { result := Except.error CompleteError.sessionExpired,
            sessions := sessionsDelete sessions sessionId, transactions := txs2,
            events := [BrokerEvent.deleteSession sessionId,
                       BrokerEvent.updateTx session.txRecordId] }
    else
      match retryWithPayment transactions session.accepted session.txRecordId retry with
      | Except.error e =>
          { result := Except.error (CompleteError.ledger e),
            sessions := sessionsDelete sessions sessionId, transactions := transactions,
            events := [BrokerEvent.deleteSession sessionId, BrokerEvent.retryRequest] }
      | Except.ok (result, txs2) =>
          { result := Except.ok result,
            sessions := sessionsDelete sessions sessionId, transactions := txs2,
            events := [BrokerEvent.deleteSession sessionId, BrokerEvent.retryRequest,
                       BrokerEvent.updateTx session.txRecordId] }

/-- Loop body of cleanupSessions, iterating the session entries in table
order: each entry past expiresAt has its ledger record marked failed with
the expiry reason and is removed from the table; a ledger lookup failure
propagates as the thrown error, as in the code. -/
def cleanupList (now : Nat) (pending : List (String × PaymentSession))
    (sessions : SessionTable) (transactions : List TransactionRecord) :
    Except LedgerError (SessionTable × List TransactionRecord) :=
  match pending with
  | [] => Except.ok (sessions, transactions)
  | (id, s) :: rest =>
    if now > s.expiresAt then
      match updateTransaction transactions s.txRecordId expiredUpdate with
      | Except.error e => Except.error e
      | Except.ok txs2 => cleanupList now rest (sessionsDelete sessions id) txs2
    else cleanupList now rest sessions transactions

/-- cleanupSessions of x402.ts, the sweeper run every 60 seconds. -/
def cleanupSessions (now : Nat) (sessions : SessionTable)
    (transactions : List TransactionRecord) :
    Except LedgerError (SessionTable × List TransactionRecord) :=
  cleanupList now sessions sessions transactions

/-- Invariant I5 of the specification, restricted to the txHash clause:
every settled transaction has a non-null txHash. -/
def settledHaveTxHash (transactions : List TransactionRecord) : Bool :=
  transactions.all (fun tx => !(tx.status == TxStatus.settled) || tx.txHash.isSome)

/-! Concrete example values used by witnesses, taken from the end-to-end
scenario of the specification: a Base Sepolia 402 offer of 100000 atomic
USDC. -/

/-- The Base Sepolia offer of the specification happy-path scenario. -/
def sepoliaOffer : PaymentRequirements :=
  { scheme := "exact", network := "eip155:84532",
    asset := "0x036CbD53842c5426634e7929541eC2318f3dCF7e", amount := "100000",
    payTo := "0xP", maxTimeoutSeconds := 600 }

/-- A 402 upstream response carrying only the Base Sepolia offer. -/
def sepolia402 : Upstream :=
  Upstream.required402 { x402Version := 2, accepts := [sepoliaOffer] }

/-- A 2xx retry whose receipt names the on-chain transaction. -/
def retry200 : RetryResponse :=
  { status := 200, receipt := some { transaction := some "0xab", txHash := none } }

/-- A 2xx retry with no payment-response receipt at all. -/
def retry200bare : RetryResponse := { status := 200, receipt := none }

/-- The pending record the broker appends in the example scenario. -/
def pendingTx : TransactionRecord := pendingRecord "t1" "ts" sepoliaOffer "api.example" "r"

/-- An example stored payment session bound to the example record. -/
def sessionExample : PaymentSession :=
  { id := "s1", url := "https://api.example/x", reason := "r", accepted := sepoliaOffer,
    authorization := { fromAddr := "0xF", toAddr := "0xP", value := "100000",
                       validAfter := "1000", validBefore := "1600", nonce := "0xN" },
    txRecordId := "t1", expiresAt := 1600 }

/-- The settled record produced by the example payment once the 2xx retry
receipt names the transaction hash. -/
def settledTx : TransactionRecord :=
  { pendingTx with status := TxStatus.settled, txHash := some "0xab" }

/-- Rules whose blocklist matches the example service host. -/
def blockedRules : SpendingRules :=
  { maxPerTransaction := none, dailyCap := none, allowedServices := [],
    blockedServices := ["evil.example"] }

/-- A zero-amount variant of the example offer. -/
def zeroOffer : PaymentRequirements := { sepoliaOffer with amount := "0" }

/-! Helper lemmas. -/

/-- Deleting a key from the session table makes lookup of that key fail. -/
theorem sessionsGet_delete (sessions : SessionTable) (id : String) :
    sessionsGet (sessionsDelete sessions id) id = none := by
  induction sessions with
  | nil => rfl
  | cons p rest ih =>
    by_cases h : p.1 = id
    · simp [sessionsDelete, sessionsGet, h] at ih ⊢
    · simp [sessionsDelete, sessionsGet, List.find?, h] at ih ⊢

/-! Claims. -/

/-- C10: migrating a legacy (v1) state document that lacks either the
top-level wallet field or the top-level adapterConfig field yields the
empty v2 document with no wallets, no active wallet and network base — no
wallet entry is created, and the legacy rules and transactions are
dropped. -/
theorem migrate_incomplete_legacy_drops_all (freshId : String) (l : LegacyClawletState)
    (h : l.wallet = none ∨ l.adapterConfig = none) :
    migrateIfNeeded freshId (RawState.legacy l) =
      { wallets := [], activeWalletId := none, network := NetworkId.base } := by
  rcases l with ⟨ac, w, r, t⟩
  cases w <;> cases ac <;>
    first
      | rfl
      | (exfalso; rcases h with h | h <;> simp at h)

/-- Witness for C10 on a legacy document that carries rules and
transactions but no wallet field: they are dropped. -/
theorem migrate_incomplete_legacy_drops_all_witness :
    ({ adapterConfig := some (AdapterConfig.localKey "ab"), wallet := none,
       rules := some { maxPerTransaction := some "5.00", dailyCap := none,
                       allowedServices := [], blockedServices := ["evil.example"] },
       transactions := some [pendingTx] } : LegacyClawletState).wallet = none ∧
    migrateIfNeeded "w1" (RawState.legacy
      { adapterConfig := some (AdapterConfig.localKey "ab"), wallet := none,
        rules := some { maxPerTransaction := some "5.00", dailyCap := none,
                        allowedServices := [], blockedServices := ["evil.example"] },
        transactions := some [pendingTx] }) =
      { wallets := [], activeWalletId := none, network := NetworkId.base } :=
  ⟨rfl, migrate_incomplete_legacy_drops_all "w1" _ (Or.inl rfl)⟩

/-- C4: the persist of store.ts performs exactly one direct write of the
serialized document to the state path, and none of its file-system
operations is a rename — it does not follow the claimed
write-to-temp-then-rename algorithm. -/
theorem persist_single_direct_write (statePath serialized : String) :
    persistOps statePath serialized = [FsOp.writeFile statePath serialized] ∧
    (persistOps statePath serialized).all
      (fun op => match op with | FsOp.rename _ _ => false | _ => true) = true :=
  ⟨rfl, rfl⟩

/-- C5: with only the daily cap set, converted at 6 decimals to X atomic
units, and a ledger whose settled transactions dated today sum to
todaySpent atomic units with todaySpent at most X, enforceRules permits an
amount whose value is X minus todaySpent and rejects an amount one atomic
unit larger with the over-daily error; todaySpent is recomputed from the
transaction list passed to each call. -/
theorem daily_cap_boundary (capStr : String) (capAtomic todaySpentN : Nat)
    (txs : List TransactionRecord) (today service amtOk amtOver : String)
    (hcap : parseUnits capStr 6 = (capAtomic : Int))
    (hspent : getTodaySpent today txs = (todaySpentN : Int))
    (_hle : todaySpentN ≤ capAtomic)
    (hOk : jsBigInt amtOk = (capAtomic : Int) - (todaySpentN : Int))
    (hOver : jsBigInt amtOver = (capAtomic : Int) - (todaySpentN : Int) + 1) :
    enforceRules { maxPerTransaction := none, dailyCap := some capStr,
                   allowedServices := [], blockedServices := [] } txs today amtOk service 6 =
      Except.ok () ∧
    enforceRules { maxPerTransaction := none, dailyCap := some capStr,
                   allowedServices := [], blockedServices := [] } txs today amtOver service 6 =
      Except.error RuleError.overDaily := by
  constructor
  · have hd : exceedsDailyCap
        { maxPerTransaction := none, dailyCap := some capStr,
          allowedServices := [], blockedServices := [] } txs today (jsBigInt amtOk) 6 = false := by
      simp only [exceedsDailyCap, hspent, hcap, hOk, decide_eq_false_iff_not]
      omega
    simp [enforceRules, exceedsMaxPerTx, serviceBlocked, serviceNotAllowed, hd]
  · have hd : exceedsDailyCap
        { maxPerTransaction := none, dailyCap := some capStr,
          allowedServices := [], blockedServices := [] } txs today (jsBigInt amtOver) 6 = true := by
      simp only [exceedsDailyCap, hspent, hcap, hOver, decide_eq_true_eq]
      omega
    simp [enforceRules, exceedsMaxPerTx, hd]

/-- Witness for C5: cap 0.10 USDC (100000 atomic), one settled 0.09 USDC
transaction dated today, so 10000 atomic passes and 10001 is over-daily. -/
theorem daily_cap_boundary_witness :
    parseUnits "0.10" 6 = ((100000 : Nat) : Int) ∧
    (enforceRules { maxPerTransaction := none, dailyCap := some "0.10",
                    allowedServices := [], blockedServices := [] }
        [{ id := "a", timestamp := "2026-10-11T01:00:00.000Z", toAddr := "p", service := "s",
           amount := "0.09", asset := "x", network := "n", txHash := some "h",
           status := TxStatus.settled, reason := "" }] "2026-10-11" "10000" "svc" 6 =
      Except.ok () ∧
    enforceRules { maxPerTransaction := none, dailyCap := some "0.10",
                   allowedServices := [], blockedServices := [] }
        [{ id := "a", timestamp := "2026-10-11T01:00:00.000Z", toAddr := "p", service := "s",
           amount := "0.09", asset := "x", network := "n", txHash := some "h",
           status := TxStatus.settled, reason := "" }] "2026-10-11" "10001" "svc" 6 =
      Except.error RuleError.overDaily) :=
  ⟨by decide,
   daily_cap_boundary "0.10" 100000 90000 _ "2026-10-11" "svc" "10000" "10001"
     (by decide) (by decide) (by decide) (by decide) (by decide)⟩

/-- C6: whenever some blocked pattern is a case-insensitive substring of
the service and the two amount checks the code runs first do not fire,
enforceRules fails with the blocked error regardless of the allowlist
content — the blocklist takes precedence over the allowlist. -/
theorem blocklist_overrides_allowlist (rules : SpendingRules)
    (txs : List TransactionRecord) (today amt service : String)
    (hperTx : exceedsMaxPerTx rules (jsBigInt amt) 6 = false)
    (hdaily : exceedsDailyCap rules txs today (jsBigInt amt) 6 = false)
    (hblocked : rules.blockedServices.any
      (fun s => containsSub (strLower service) (strLower s)) = true) :
    enforceRules rules txs today amt service 6 = Except.error RuleError.blocked := by
  have hlen : rules.blockedServices.length > 0 := by
    cases h : rules.blockedServices with
    | nil => rw [h] at hblocked; simp at hblocked
    | cons a l => simp [h]
  have hb : serviceBlocked rules service = true := by
    simp [serviceBlocked, hblocked, hlen]
  simp [enforceRules, hperTx, hdaily, hb]

/-- C1: whenever the active wallet is frozen or the rules engine rejects
the negotiated amount and service inside negotiation, x402Fetch fails with
the corresponding error, logs no broker event at all — in particular no
adapter signing — and leaves the wallet transaction list unchanged. -/
theorem frozen_or_rule_reject_no_artifact (frozen : Bool) (net : String)
    (rules : SpendingRules) (txs : List TransactionRecord)
    (today service : String) (upstream : Upstream) (retry : RetryResponse)
    (tid ts reason : String)
    (h : frozen = true ∨
      ∃ e, negotiate net rules txs today upstream service =
        Except.error (NegotiateError.ruleViolation e)) :
    ((x402Fetch frozen net rules txs today service upstream retry tid ts reason).result =
        Except.error FetchError.walletFrozen ∨
      ∃ e, (x402Fetch frozen net rules txs today service upstream retry tid ts reason).result =
        Except.error (FetchError.negotiationFailed (NegotiateError.ruleViolation e))) ∧
    (x402Fetch frozen net rules txs today service upstream retry tid ts reason).transactions =
      txs ∧
    (x402Fetch frozen net rules txs today service upstream retry tid ts reason).events = [] := by
  rcases h with h | ⟨e, he⟩
  · subst h
    exact ⟨Or.inl rfl, rfl, rfl⟩
  · cases frozen
    · refine ⟨Or.inr ⟨e, ?_⟩, ?_, ?_⟩ <;> simp [x402Fetch, he]
    · exact ⟨Or.inl rfl, rfl, rfl⟩

/-- Witness for C1 on a blocked service: the rule violation surfaces as the
x402Fetch error, with no events and an unchanged empty ledger. -/
theorem frozen_or_rule_reject_no_artifact_witness :
    ((x402Fetch false "eip155:84532" blockedRules [] "2026-10-11" "api.evil.example"
        sepolia402 retry200 "t1" "ts" "r").result = Except.error FetchError.walletFrozen ∨
      ∃ e, (x402Fetch false "eip155:84532" blockedRules [] "2026-10-11" "api.evil.example"
        sepolia402 retry200 "t1" "ts" "r").result =
          Except.error (FetchError.negotiationFailed (NegotiateError.ruleViolation e))) ∧
    (x402Fetch false "eip155:84532" blockedRules [] "2026-10-11" "api.evil.example"
      sepolia402 retry200 "t1" "ts" "r").transactions = [] ∧
    (x402Fetch false "eip155:84532" blockedRules [] "2026-10-11" "api.evil.example"
      sepolia402 retry200 "t1" "ts" "r").events = [] :=
  frozen_or_rule_reject_no_artifact false "eip155:84532" blockedRules [] "2026-10-11"
    "api.evil.example" sepolia402 retry200 "t1" "ts" "r"
    (Or.inr ⟨RuleError.blocked, by decide⟩)

/-- C7: when complete succeeds on a session id, its event log removes the
session strictly before issuing the retry request, and a subsequent
complete on the same id over the resulting state fails with the
session-not-found error. -/
theorem session_one_shot (sessions : SessionTable) (txs : List TransactionRecord)
    (now1 now2 : Nat) (sid sig1 sig2 : String) (retry1 retry2 : RetryResponse)
    (pr : PaymentResult)
    (h : (x402Complete sessions txs now1 sid sig1 retry1).result = Except.ok pr) :
    (∃ rid, (x402Complete sessions txs now1 sid sig1 retry1).events =
      [BrokerEvent.deleteSession sid, BrokerEvent.retryRequest, BrokerEvent.updateTx rid]) ∧
    (x402Complete (x402Complete sessions txs now1 sid sig1 retry1).sessions
        (x402Complete sessions txs now1 sid sig1 retry1).transactions
        now2 sid sig2 retry2).result = Except.error CompleteError.sessionNotFound := by
  cases hs : sessionsGet sessions sid with
  | none => simp only [x402Complete, hs] at h; simp at h
  | some session =>
    simp only [x402Complete, hs] at h
    by_cases hexp : now1 > session.expiresAt
    · rw [if_pos hexp] at h
      cases hu : updateTransaction txs session.txRecordId expiredUpdate <;>
        rw [hu] at h <;> simp at h
    · rw [if_neg hexp] at h
      cases hr : retryWithPayment txs session.accepted session.txRecordId retry1 with
      | error e => rw [hr] at h; simp at h
      | ok p =>
        obtain ⟨result, txs2⟩ := p
        constructor
        · exact ⟨session.txRecordId, by simp [x402Complete, hs, hexp, hr]⟩
        · simp [x402Complete, hs, hexp, hr, sessionsGet_delete]

/-- Witness for C7: the example session completes once, and the second
complete on the resulting state fails with the session-not-found error. -/
theorem session_one_shot_witness :
    (∃ rid, (x402Complete [("s1", sessionExample)] [pendingTx] 1000 "s1" "sig" retry200).events =
      [BrokerEvent.deleteSession "s1", BrokerEvent.retryRequest, BrokerEvent.updateTx rid]) ∧
    (x402Complete
        (x402Complete [("s1", sessionExample)] [pendingTx] 1000 "s1" "sig" retry200).sessions
        (x402Complete [("s1", sessionExample)] [pendingTx] 1000 "s1" "sig" retry200).transactions
        1001 "s1" "sig" retry200).result = Except.error CompleteError.sessionNotFound :=
  session_one_shot [("s1", sessionExample)] [pendingTx] 1000 1001 "s1" "sig" "sig"
    retry200 retry200 { status := 200, txHash := some "0xab", amount := "0.1", payTo := "0xP" }
    (by decide)

/-- C2 counterexample: on a concrete successful single-shot payment the
event log of x402Fetch places the adapter signing call strictly before the
pending-ledger append, so the broker does invoke signing before the
pending record is persisted. -/
theorem single_shot_signs_before_pending_append :
    (x402Fetch false "eip155:84532" DEFAULT_RULES [] "2026-10-11" "api.example"
        sepolia402 retry200 "t1" "ts" "r").events =
      [BrokerEvent.sign, BrokerEvent.appendPending "t1", BrokerEvent.retryRequest,
       BrokerEvent.updateTx "t1"] ∧
    List.indexOf BrokerEvent.sign
        (x402Fetch false "eip155:84532" DEFAULT_RULES [] "2026-10-11" "api.example"
          sepolia402 retry200 "t1" "ts" "r").events <
      List.indexOf (BrokerEvent.appendPending "t1")
        (x402Fetch false "eip155:84532" DEFAULT_RULES [] "2026-10-11" "api.example"
          sepolia402 retry200 "t1" "ts" "r").events := by
  decide

/-- C2 amended: in the single-shot flow the adapter signature is produced
first and the pending ledger entry is appended after signing but before the
retry request is issued; in the two-phase flow the pending entry is
appended during prepare, before any signature exists. -/
theorem pending_append_after_sign_before_retry
    (net : String) (rules : SpendingRules) (txs : List TransactionRecord)
    (today service : String) (upstream : Upstream) (retry : RetryResponse)
    (tid ts reason : String) (accepted : PaymentRequirements) (service2 : String)
    (result : PaymentResult) (txs2 : List TransactionRecord)
    (sessions : SessionTable) (now : Nat)
    (fromAddress nonce ts2 reason2 sessionId url : String) (domain : Eip712Domain)
    (hn : negotiate net rules txs today upstream service =
      Except.ok (NegotiateOutcome.payment accepted service2))
    (hr : retryWithPayment
        (addTransaction txs (pendingRecord tid ts accepted service2 reason))
        accepted tid retry = Except.ok (result, txs2))
    (hd : USDC_DOMAIN accepted.network = some domain) :
    (x402Fetch false net rules txs today service upstream retry tid ts reason).events =
      [BrokerEvent.sign, BrokerEvent.appendPending tid, BrokerEvent.retryRequest,
       BrokerEvent.updateTx tid] ∧
    (x402Prepare false net rules txs today service upstream sessions now
        fromAddress nonce tid ts2 reason2 sessionId url).events =
      [BrokerEvent.appendPending tid] := by
  constructor
  · simp [x402Fetch, hn, hr]
  · simp [x402Prepare, hn, hd]

/-- Witness for the amended C2 on the example payment. -/
theorem pending_append_after_sign_before_retry_witness :
    (x402Fetch false "eip155:84532" DEFAULT_RULES [] "2026-10-11" "api.example"
        sepolia402 retry200 "t1" "ts" "r").events =
      [BrokerEvent.sign, BrokerEvent.appendPending "t1", BrokerEvent.retryRequest,
       BrokerEvent.updateTx "t1"] ∧
    (x402Prepare false "eip155:84532" DEFAULT_RULES [] "2026-10-11" "api.example"
        sepolia402 [] 1000 "0xF" "0xN" "t1" "ts" "r" "s1" "https://api.example/x").events =
      [BrokerEvent.appendPending "t1"] :=
  pending_append_after_sign_before_retry "eip155:84532" DEFAULT_RULES [] "2026-10-11"
    "api.example" sepolia402 retry200 "t1" "ts" "r" sepoliaOffer "api.example"
    { status := 200, txHash := some "0xab", amount := "0.1", payTo := "0xP" } [settledTx]
    [] 1000 "0xF" "0xN" "ts" "r" "s1" "https://api.example/x"
    { name := "USDC", version := "2", chainId := 84532,
      verifyingContract := "0x036CbD53842c5426634e7929541eC2318f3dCF7e" }
    (by decide) (by decide) (by decide)

/-- C3 counterexample: a concrete single-shot payment whose 2xx retry
carries no payment-response receipt produces a settled ledger record with
null txHash, violating the txHash clause of invariant I5. -/
theorem settled_record_with_null_txHash :
    settledHaveTxHash (x402Fetch false "eip155:84532" DEFAULT_RULES [] "2026-10-11"
      "api.example" sepolia402 retry200bare "t1" "ts" "r").transactions = false ∧
    (x402Fetch false "eip155:84532" DEFAULT_RULES [] "2026-10-11"
      "api.example" sepolia402 retry200bare "t1" "ts" "r").result =
      Except.ok (FetchResult.paid
        { status := 200, txHash := none, amount := "0.1", payTo := "0xP" }) := by
  decide

/-- C3 amended: on a 2xx retry the pending record settles, and its txHash
is the extracted receipt hash when a non-empty one was extracted, staying
null otherwise — receipt extraction failures degrade txHash to null rather
than failing the call. -/
theorem settled_txHash_follows_receipt (tx : TransactionRecord)
    (accepted : PaymentRequirements) (retry : RetryResponse)
    (htx : tx.txHash = none) (h2xxLo : 200 ≤ retry.status) (h2xxHi : retry.status < 300) :
    retryWithPayment [tx] accepted tx.id retry =
      Except.ok ({ status := retry.status, txHash := extractTxHash retry.receipt,
                   amount := formatUnits (jsBigInt accepted.amount) 6,
                   payTo := accepted.payTo },
        [{ tx with
             status := TxStatus.settled,
             txHash := (match extractTxHash retry.receipt with
               | some h => if h = "" then none else some h
               | none => none) }]) := by
  obtain ⟨tid, tts, tto, tsv, tam, tas, tnw, tth, tst, trs⟩ := tx
  simp only at htx
  subst htx
  cases hrec : extractTxHash retry.receipt with
  | none =>
      simp [retryWithPayment, h2xxLo, h2xxHi, hrec, updateTransaction, replaceFirst,
        applyUpdate]
  | some hsh =>
      by_cases hh : hsh = "" <;>
        simp [retryWithPayment, h2xxLo, h2xxHi, hrec, updateTransaction, replaceFirst,
          applyUpdate, hh]

/-- Witness for the amended C3 on the example payment with a receipt. -/
theorem settled_txHash_follows_receipt_witness :
    pendingTx.txHash = none ∧
    retryWithPayment [pendingTx] sepoliaOffer pendingTx.id retry200 =
      Except.ok ({ status := retry200.status, txHash := extractTxHash retry200.receipt,
                   amount := formatUnits (jsBigInt sepoliaOffer.amount) 6,
                   payTo := sepoliaOffer.payTo },
        [{ pendingTx with
             status := TxStatus.settled,
             txHash := (match extractTxHash retry200.receipt with
               | some h => if h = "" then none else some h
               | none => none) }]) :=
  ⟨by decide,
   settled_txHash_follows_receipt pendingTx sepoliaOffer retry200
     (by decide) (by decide) (by decide)⟩

/-- C8 counterexample: after a successful complete, a second complete on
the same session id fails with the session-not-found error, yet the ledger
record tied to the session stays settled with its original reason — it is
never marked failed with the expiry reason, neither by the complete call
nor by the sweeper, which leaves the empty table and the ledger as they
are. -/
theorem second_complete_leaves_settled_entry :
    (x402Complete [("s1", sessionExample)] [pendingTx] 1000 "s1" "sig" retry200).result =
      Except.ok { status := 200, txHash := some "0xab", amount := "0.1", payTo := "0xP" } ∧
    (x402Complete
        (x402Complete [("s1", sessionExample)] [pendingTx] 1000 "s1" "sig" retry200).sessions
        (x402Complete [("s1", sessionExample)] [pendingTx] 1000 "s1" "sig" retry200).transactions
        1001 "s1" "sig" retry200).result = Except.error CompleteError.sessionNotFound ∧
    (x402Complete
        (x402Complete [("s1", sessionExample)] [pendingTx] 1000 "s1" "sig" retry200).sessions
        (x402Complete [("s1", sessionExample)] [pendingTx] 1000 "s1" "sig" retry200).transactions
        1001 "s1" "sig" retry200).transactions = [settledTx] ∧
    settledTx.status = TxStatus.settled ∧ settledTx.reason = "r" ∧
    cleanupSessions 999999
        (x402Complete [("s1", sessionExample)] [pendingTx] 1000 "s1" "sig" retry200).sessions
        [settledTx] = Except.ok ([], [settledTx]) := by
  decide

/-- C8 amended: complete on an absent session fails with the
session-not-found error leaving the table and the ledger untouched, while
complete on a present but expired session whose record exists fails with
the distinct session-expired error, removes the session and marks its
ledger record failed with reason Payment session expired. -/
theorem complete_absent_or_expired (sessions : SessionTable)
    (txs : List TransactionRecord) (now : Nat) (sid sig : String) (retry : RetryResponse)
    (h : match sessionsGet sessions sid with
         | none => True
         | some s => now > s.expiresAt ∧ txs.any (fun t => t.id == s.txRecordId) = true) :
    match sessionsGet sessions sid with
    | none =>
        x402Complete sessions txs now sid sig retry =
          { result := Except.error CompleteError.sessionNotFound, sessions := sessions,
            transactions := txs, events := [] }
    | some s =>
        x402Complete sessions txs now sid sig retry =
          { result := Except.error CompleteError.sessionExpired,
            sessions := sessionsDelete sessions sid,
            transactions := replaceFirst txs s.txRecordId expiredUpdate,
            events := [BrokerEvent.deleteSession sid,
                       BrokerEvent.updateTx s.txRecordId] } := by
  cases hs : sessionsGet sessions sid with
  | none => simp [x402Complete, hs]
  | some s =>
    rw [hs] at h
    dsimp only at h
    obtain ⟨hexp, hmem⟩ := h
    simp [x402Complete, hs, hexp, updateTransaction, hmem]

/-- Witness for the amended C8: the example session seen after its expiry
is removed, the expired error is thrown, and the ledger record is marked
failed with the expiry reason. -/
theorem complete_absent_or_expired_witness :
    (2000 > sessionExample.expiresAt ∧
      [pendingTx].any (fun t => t.id == sessionExample.txRecordId) = true) ∧
    x402Complete [("s1", sessionExample)] [pendingTx] 2000 "s1" "sig" retry200 =
      { result := Except.error CompleteError.sessionExpired,
        sessions := sessionsDelete [("s1", sessionExample)] "s1",
        transactions := replaceFirst [pendingTx] sessionExample.txRecordId expiredUpdate,
        events := [BrokerEvent.deleteSession "s1",
                   BrokerEvent.updateTx sessionExample.txRecordId] } :=
  ⟨⟨by decide, by decide⟩,
   complete_absent_or_expired [("s1", sessionExample)] [pendingTx] 2000 "s1" "sig" retry200
     ⟨by decide, by decide⟩⟩

/-- C9 counterexample: a zero-amount payment renders its human-readable
amount as the bare digit zero with no fractional part, not the claimed
string with one fractional digit. -/
theorem receipt_amount_zero_no_fraction :
    retryWithPayment [pendingRecord "t1" "ts" zeroOffer "api.example" "r"] zeroOffer "t1"
        retry200 =
      Except.ok ({ status := 200, txHash := some "0xab", amount := "0", payTo := "0xP" },
        [{ pendingRecord "t1" "ts" zeroOffer "api.example" "r" with
            status := TxStatus.settled, txHash := some "0xab" }]) ∧
    ("0" : String) ≠ "0.0" := by
  decide

/-- C9 amended: the human-readable amount in the broker payment summary is
formatUnits of the atomic amount at 6 decimals — no scientific notation,
trailing fractional zeros trimmed, and the fraction omitted entirely when
it is zero: 100000 renders as 0.1, 10000 as 0.01, 1234567 as 1.234567, and
0 as the bare digit 0. -/
theorem receipt_amount_formatting (txs txs2 : List TransactionRecord)
    (accepted : PaymentRequirements) (tid : String) (retry : RetryResponse)
    (result : PaymentResult)
    (h : retryWithPayment txs accepted tid retry = Except.ok (result, txs2)) :
    result.amount = formatUnits (jsBigInt accepted.amount) 6 ∧
    formatUnits 100000 6 = "0.1" ∧ formatUnits 10000 6 = "0.01" ∧
    formatUnits 1234567 6 = "1.234567" ∧ formatUnits 0 6 = "0" := by
  refine ⟨?_, by decide, by decide, by decide, by decide⟩
  simp only [retryWithPayment] at h
  split at h
  · simp at h
  · injection h with h2
    injection h2 with h3 h4
    rw [← h3]

/-- Witness for the amended C9 on the example payment. -/
theorem receipt_amount_formatting_witness :
    retryWithPayment [pendingTx] sepoliaOffer "t1" retry200 =
      Except.ok ({ status := 200, txHash := some "0xab", amount := "0.1", payTo := "0xP" },
        [settledTx]) ∧
    ({ status := 200, txHash := some "0xab", amount := "0.1",
       payTo := "0xP" } : PaymentResult).amount = formatUnits (jsBigInt sepoliaOffer.amount) 6 :=
  ⟨by decide,
   (receipt_amount_formatting [pendingTx] [settledTx] sepoliaOffer "t1" retry200
     { status := 200, txHash := some "0xab", amount := "0.1", payTo := "0xP" }
     (by decide)).1⟩

/-- Witness for C6: the pattern evil.example sits in both the allowlist and
the blocklist, the service matches it only up to case, no cap fires, and
enforceRules still fails with the blocked error. -/
theorem blocklist_overrides_allowlist_witness :
    ({ maxPerTransaction := none, dailyCap := none,
       allowedServices := ["evil.example"],
       blockedServices := ["evil.example"] } : SpendingRules).blockedServices.any
      (fun s => containsSub (strLower "API.Evil.Example") (strLower s)) = true ∧
    enforceRules { maxPerTransaction := none, dailyCap := none,
                   allowedServices := ["evil.example"], blockedServices := ["evil.example"] }
      [] "2026-10-11" "100000" "API.Evil.Example" 6 = Except.error RuleError.blocked :=
  ⟨by decide,
   blocklist_overrides_allowlist _ [] "2026-10-11" "100000" "API.Evil.Example"
     (by decide) (by decide) (by decide)⟩

end Clawlet
